import Mathlib

set_option linter.unusedVariables false

/-!
Verification development for the dialect layer and tree-data provider of a
database-client editor extension.  The definitions below are shallow
embeddings of `src/service/dialect/esDialect.ts` and
`src/provider/treeDataProvider.ts`: TypeScript methods that return a string
become Lean functions returning `CallOutcome.returned`, methods that throw
become `CallOutcome.threw`, and the provider's try/catch and object-spread
logic become explicit matches and list operations.
-/

/-- Outcome of invoking one TypeScript method: either a normal return of a
string, or a thrown exception carrying its message.  This is the honest
result type of the source code: no other result channel exists there. -/
inductive CallOutcome where
  | returned (s : String)
  | threw (msg : String)
  deriving DecidableEq, Repr

namespace EsDialect

/-- Embeds `EsDialect.variableList`, which is
`throw new Error("Method not implemented.")`. -/
def variableList : CallOutcome := .threw "Method not implemented."

/-- Embeds `EsDialect.statusList`, which throws. -/
def statusList : CallOutcome := .threw "Method not implemented."

/-- Embeds `EsDialect.processList`, which throws. -/
def processList : CallOutcome := .threw "Method not implemented."

/-- Embeds `EsDialect.updateColumn(table, column, type, comment, nullable)`,
which returns `""` ignoring all arguments. -/
def updateColumn (table column type comment nullable : String) : CallOutcome :=
  .returned ""

/-- Embeds `EsDialect.showDatabases()`, returning `""`. -/
def showDatabases : CallOutcome := .returned ""

/-- Embeds `EsDialect.showTables(database)`, returning `""`. -/
def showTables (database : String) : CallOutcome := .returned ""

/-- Embeds `EsDialect.addColumn(table)`, returning `""`. -/
def addColumn (table : String) : CallOutcome := .returned ""

/-- Embeds `EsDialect.showColumns(database, table)`, returning `""`. -/
def showColumns (database table : String) : CallOutcome := .returned ""

/-- Embeds `EsDialect.showViews(database)`, returning `""`. -/
def showViews (database : String) : CallOutcome := .returned ""

/-- Embeds `EsDialect.showSystemViews(database)`, returning `""`. -/
def showSystemViews (database : String) : CallOutcome := .returned ""

/-- Embeds `EsDialect.showUsers()`, returning `""`. -/
def showUsers : CallOutcome := .returned ""

/-- Embeds `EsDialect.createUser()`, returning `""`. -/
def createUser : CallOutcome := .returned ""

/-- Embeds `EsDialect.showTriggers(database)`, returning `""`. -/
def showTriggers (database : String) : CallOutcome := .returned ""

/-- Embeds `EsDialect.showProcedures(database)`, returning `""`. -/
def showProcedures (database : String) : CallOutcome := .returned ""

/-- Embeds `EsDialect.showFunctions(database)`, returning `""`. -/
def showFunctions (database : String) : CallOutcome := .returned ""

/-- Embeds `EsDialect.buildPageSql(database, table, pageSize)`, returning `""`
for every argument triple; the method takes no page index. -/
def buildPageSql (database table : String) (pageSize : Int) : CallOutcome :=
  .returned ""

/-- Embeds `EsDialect.countSql(database, table)`, returning `""`. -/
def countSql (database table : String) : CallOutcome := .returned ""

/-- Embeds `EsDialect.createDatabase(database)`, returning `""`. -/
def createDatabase (database : String) : CallOutcome := .returned ""

/-- Embeds `EsDialect.truncateDatabase(database)`, returning `""`. -/
def truncateDatabase (database : String) : CallOutcome := .returned ""

/-- Embeds `EsDialect.renameTable(database, tableName, newName)`, returning `""`. -/
def renameTable (database tableName newName : String) : CallOutcome :=
  .returned ""

/-- Embeds `EsDialect.showTableSource(database, table)`, returning `""`. -/
def showTableSource (database table : String) : CallOutcome := .returned ""

/-- Embeds `EsDialect.showViewSource(database, table)`, returning `""`. -/
def showViewSource (database table : String) : CallOutcome := .returned ""

/-- Embeds `EsDialect.showProcedureSource(database, name)`, returning `""`. -/
def showProcedureSource (database name : String) : CallOutcome := .returned ""

/-- Embeds `EsDialect.showFunctionSource(database, name)`, returning `""`. -/
def showFunctionSource (database name : String) : CallOutcome := .returned ""

/-- Embeds `EsDialect.showTriggerSource(database, name)`, returning `""`. -/
def showTriggerSource (database name : String) : CallOutcome := .returned ""

/-- Embeds `EsDialect.tableTemplate()`, returning `""`. -/
def tableTemplate : CallOutcome := .returned ""

/-- Embeds `EsDialect.viewTemplate()`, returning `""`. -/
def viewTemplate : CallOutcome := .returned ""

/-- Embeds `EsDialect.procedureTemplate()`, returning `""`. -/
def procedureTemplate : CallOutcome := .returned ""

/-- Embeds `EsDialect.triggerTemplate()`, returning `""`. -/
def triggerTemplate : CallOutcome := .returned ""

/-- Embeds `EsDialect.functionTemplate()`, returning `""`. -/
def functionTemplate : CallOutcome := .returned ""

end EsDialect

/-- The fixed operation set of the dialect contract: exactly the methods the
`EsDialect` class overrides in the source. -/
inductive DialectOp where
  | variableList | statusList | processList
  | updateColumn | showDatabases | showTables | addColumn | showColumns
  | showViews | showSystemViews | showUsers | createUser
  | showTriggers | showProcedures | showFunctions
  | buildPageSql | countSql | createDatabase | truncateDatabase | renameTable
  | showTableSource | showViewSource | showProcedureSource
  | showFunctionSource | showTriggerSource
  | tableTemplate | viewTemplate | procedureTemplate | triggerTemplate
  | functionTemplate
  deriving DecidableEq, Repr

/-- The parameter bundle for one generation call: every plain parameter the
methods of the operation set take. -/
structure OperationRequest where
  database : String
  table : String
  column : String
  columnType : String
  comment : String
  nullable : String
  pageSize : Int
  name : String
  newName : String
  deriving DecidableEq, Repr

/-- Dispatches one operation of the fixed set to the corresponding
`EsDialect` method, passing the fields of the request that the TypeScript
signature takes. -/
def esCall (op : DialectOp) (r : OperationRequest) : CallOutcome :=
  match op with
  | .variableList => EsDialect.variableList
  | .statusList => EsDialect.statusList
  | .processList => EsDialect.processList
  | .updateColumn =>
      EsDialect.updateColumn r.table r.column r.columnType r.comment r.nullable
  | .showDatabases => EsDialect.showDatabases
  | .showTables => EsDialect.showTables r.database
  | .addColumn => EsDialect.addColumn r.table
  | .showColumns => EsDialect.showColumns r.database r.table
  | .showViews => EsDialect.showViews r.database
  | .showSystemViews => EsDialect.showSystemViews r.database
  | .showUsers => EsDialect.showUsers
  | .createUser => EsDialect.createUser
  | .showTriggers => EsDialect.showTriggers r.database
  | .showProcedures => EsDialect.showProcedures r.database
  | .showFunctions => EsDialect.showFunctions r.database
  | .buildPageSql => EsDialect.buildPageSql r.database r.table r.pageSize
  | .countSql => EsDialect.countSql r.database r.table
  | .createDatabase => EsDialect.createDatabase r.database
  | .truncateDatabase => EsDialect.truncateDatabase r.database
  | .renameTable => EsDialect.renameTable r.database r.table r.newName
  | .showTableSource => EsDialect.showTableSource r.database r.table
  | .showViewSource => EsDialect.showViewSource r.database r.table
  | .showProcedureSource => EsDialect.showProcedureSource r.database r.name
  | .showFunctionSource => EsDialect.showFunctionSource r.database r.name
  | .showTriggerSource => EsDialect.showTriggerSource r.database r.name
  | .tableTemplate => EsDialect.tableTemplate
  | .viewTemplate => EsDialect.viewTemplate
  | .procedureTemplate => EsDialect.procedureTemplate
  | .triggerTemplate => EsDialect.triggerTemplate
  | .functionTemplate => EsDialect.functionTemplate

/-- A sample concrete request used by closed counterexample theorems. -/
def sampleRequest : OperationRequest :=
  { database := "shop", table := "orders", column := "price",
    columnType := "int", comment := "", nullable := "YES",
    pageSize := 20, name := "proc1", newName := "orders2" }

/-- Classifies a call outcome as a Generated statement result: normal string
returns of the source are generated statement text; thrown exceptions are
not. -/
def resultIsGenerated : CallOutcome → Bool
  | .returned _ => true
  | .threw _ => false

/-- Modelled from the spec: the spec's `StatementResult` has a distinguished
`Unsupported(reason)` alternative, but the source code's methods can only
return a string or throw, so no outcome of the code carries an
`Unsupported` marker; the classifier is constantly false on the code's
outcome type. -/
def resultIsUnsupported : CallOutcome → Bool
  | _ => false

/-- Modelled from the spec: the spec's error taxonomy has an
`InvalidRequest(field)` result, but the source code's methods have no such
result channel (they return a string or throw), so no outcome of the code is
an `InvalidRequest`. -/
def resultIsInvalidRequest : CallOutcome → Bool
  | _ => false

/-- Modelled from the spec: the capability descriptor `supports(operation)`
is absent from the source; per the spec a document store has no trigger,
procedure or function concept and no catalog for source introspection, so
those operations are unsupported for the document-store dialect, and the
rest are marked supported. -/
def esSupports : DialectOp → Bool
  | .showTriggers => false
  | .showProcedures => false
  | .showFunctions => false
  | .showTableSource => false
  | .showViewSource => false
  | .showProcedureSource => false
  | .showFunctionSource => false
  | .showTriggerSource => false
  | .triggerTemplate => false
  | .procedureTemplate => false
  | .functionTemplate => false
  | _ => true

/-- Runs a sequence of dialect calls in order, collecting each outcome. -/
def runEsCalls (calls : List (DialectOp × OperationRequest)) : List CallOutcome :=
  calls.map (fun c => esCall c.1 c.2)

/-- Database type tags as compared against in `DbTreeDataProvider.getNode`.
`unlisted tag` stands for any `dbType` value other than `ES`, `REDIS` and
`SSH` — relational types and unknown or future kinds alike, all of which
take the final `else` branch of the source. -/
inductive DatabaseType where
  | es
  | redis
  | ssh
  | unlisted (tag : String)
  deriving DecidableEq, Repr

/-- A stored connection descriptor as `getNode` reads it: the `dbType` tag,
the tri-state `global` flag (`true`, `false` or absent, as in older stored
versions), and the `name` and `ssh` fields the SSH branch passes on. -/
structure ConnInfo where
  dbType : DatabaseType
  global : Option Bool
  name : String
  ssh : String
  deriving DecidableEq, Repr

/-- The concrete node class `getNode` instantiates. -/
inductive NodeKind where
  | esConnection
  | redisConnection
  | sshConnection
  | connection
  deriving DecidableEq, Repr

/-- The node `getNode` returns: its class, the key it was constructed with,
the connection descriptor it stores (`none` for SSH nodes, whose constructor
receives only the `ssh` and `name` fields), the normalized `global` flag and
whether `node.context` was set to the workspace state rather than the global
state.  The connection-node classes live outside `src/`; they are modelled
as records of their constructor arguments, with the node's `global` property
read from the stored descriptor. -/
structure ResolvedNode where
  kind : NodeKind
  key : String
  info : Option ConnInfo
  sshConfig : String
  name : String
  global : Bool
  usesWorkspaceContext : Bool
  deriving DecidableEq, Repr

/-- The `global` property the freshly constructed node exposes, before the
compatibility shim: ES/Redis/default nodes store the whole descriptor and
expose its `global` field; the SSH constructor is given only `ssh` and
`name`, so its `global` is absent. -/
def rawGlobal (kind : NodeKind) (connectInfo : ConnInfo) : Option Bool :=
  match kind with
  | .sshConnection => none
  | _ => connectInfo.global

/-- Embeds `DbTreeDataProvider.getNode(connectInfo, key)`: dispatches on
`dbType` with a default `else` branch building a plain `ConnectionNode`,
then applies the older-versions compatibility shim (`global` becomes `true`
unless it is exactly `false`) and selects the workspace context exactly when
`global` is `false`. -/
def getNode (connectInfo : ConnInfo) (key : String) : ResolvedNode :=
  let kind : NodeKind :=
    if connectInfo.dbType = .es then .esConnection
    else if connectInfo.dbType = .redis then .redisConnection
    else if connectInfo.dbType = .ssh then .sshConnection
    else .connection
  let g0 : Option Bool := rawGlobal kind connectInfo
  let g : Bool := if g0 = some false then false else true
  { kind := kind
    key := key
    info := match kind with | .sshConnection => none | _ => some connectInfo
    sshConfig := connectInfo.ssh
    name := connectInfo.name
    global := g
    usesWorkspaceContext := !g }

/-- Looks a key up in a stored key-to-connection object, modelling JS
property access on the deserialized store. -/
def lookupKey (k : String) : List (String × ConnInfo) → Option ConnInfo
  | [] => none
  | (k', v) :: rest => if k' = k then some v else lookupKey k rest

/-- Embeds the object spread
`{ ...globalConnections, ...workspaceConnections }` of
`getConnectionNodes`: the first object's keys in order with values
overridden by the second object where the key recurs, followed by the
second object's new keys in order. -/
def mergeConnections (g w : List (String × ConnInfo)) :
    List (String × ConnInfo) :=
  g.map (fun p => (p.1, (lookupKey p.1 w).getD p.2))
    ++ w.filter (fun p => (lookupKey p.1 g).isNone)

/-- Embeds `DbTreeDataProvider.getConnectionNodes`: merges the global and
workspace stores by object spread and maps every key of the merged object
through `getNode`. -/
def getConnectionNodes (g w : List (String × ConnInfo)) : List ResolvedNode :=
  (mergeConnections g w).map (fun p => getNode p.2 p.1)

/-- One child node as the provider sees it: a uid and a mutable parent
field. -/
structure ChildNode where
  uid : Nat
  parent : Option Nat
  deriving DecidableEq, Repr

/-- A non-root tree element: its uid and the result of its own
`getChildren()` call, which either resolves to children or throws. -/
structure TreeElement where
  uid : Nat
  childResult : Except String (List ChildNode)
  deriving Repr

/-- An entry of the list the provider returns: either a child node or the
`InfoNode` wrapping a caught error. -/
inductive ProviderChild where
  | node (c : ChildNode)
  | info (err : String)
  deriving DecidableEq, Repr

/-- The provider's `for (const child of children) child.parent = element`
loop: assigns the element's identity to each child's parent field in order. -/
def setParents (parentUid : Nat) : List ChildNode → List ChildNode
  | [] => []
  | child :: rest => ⟨child.uid, some parentUid⟩ :: setParents parentUid rest

/-- Embeds `DbTreeDataProvider.getChildren` on a non-root element: awaits
the element's own `getChildren`, sets each child's parent to the element and
returns the children; a thrown error is caught and becomes a single
`InfoNode`. -/
def providerGetChildren (element : TreeElement) : List ProviderChild :=
  match element.childResult with
  | .ok children => (setParents element.uid children).map ProviderChild.node
  | .error e => [ProviderChild.info e]

/-- Modelled from the spec: per-dialect identifier quoting escapes an
embedded occurrence of the dialect's closing quote character by doubling it
(the spec's quote-doubling escaping primitive applied to the dialect's own
quote character).  No quoting code is present under `src/`. -/
def escapeQuote (q : Char) : List Char → List Char
  | [] => []
  | c :: rest =>
      if c = q then q :: q :: escapeQuote q rest else c :: escapeQuote q rest

/-- Modelled from the spec: quoting an identifier for a dialect whose
opening and closing quote characters are `op` and `cl` (backtick/backtick,
double-quote/double-quote, or bracket pairs, by family) wraps the escaped
identifier in them. -/
def quoteIdent (op cl : Char) (s : List Char) : List Char :=
  op :: escapeQuote cl s ++ [cl]

/-- Modelled from the spec: the inverse escaping rule, collapsing each
doubled closing-quote character back to a single occurrence. -/
def unescapeQuote (q : Char) : List Char → List Char
  | [] => []
  | [c] => [c]
  | c :: c2 :: rest =>
      if c = q then q :: unescapeQuote q rest
      else c :: unescapeQuote q (c2 :: rest)

/-- Modelled from the spec: unquoting strips the outer quote characters and
reverses the doubling of the closing quote character. -/
def unquoteIdent (cl : Char) (s : List Char) : List Char :=
  unescapeQuote cl ((s.drop 1).dropLast)

/-- String-level quoting, applying `quoteIdent` to the identifier's
characters. -/
def quoteIdentStr (op cl : Char) (s : String) : String :=
  String.mk (quoteIdent op cl s.data)

/-- String-level unquoting, applying `unquoteIdent` to the quoted form's
characters. -/
def unquoteIdentStr (cl : Char) (s : String) : String :=
  String.mk (unquoteIdent cl s.data)

/-- A demonstration global connection store used by closed witness
theorems. -/
def demoGlobal : List (String × ConnInfo) :=
  [("a", ⟨DatabaseType.unlisted "mysql", some true, "global-a", ""⟩),
   ("b", ⟨DatabaseType.redis, none, "global-b", ""⟩)]

/-- A demonstration workspace connection store sharing the key `"a"` with
`demoGlobal`. -/
def demoWorkspace : List (String × ConnInfo) :=
  [("a", ⟨DatabaseType.es, some false, "ws-a", ""⟩)]

/-- C1 counterexample: invoked on the document-store dialect `EsDialect`,
the operation `variableList` throws `Error("Method not implemented.")`; it
does not return an `Unsupported` result, so not every operation of the
fixed set returns `Unsupported` without throwing. -/
theorem esDialect_variableList_throws :
    esCall DialectOp.variableList sampleRequest
      = CallOutcome.threw "Method not implemented."
    ∧ resultIsUnsupported (esCall DialectOp.variableList sampleRequest)
        = false :=
  ⟨rfl, rfl⟩

/-- C1 (amended): invoked on the document-store dialect `EsDialect`, the
operations `variableList`, `statusList` and `processList` throw
`Error("Method not implemented.")`, and every other operation of the fixed
set returns the empty string; no operation returns an `Unsupported`
result. -/
theorem esDialect_ops_throw_or_return_empty :
    ∀ (op : DialectOp) (r : OperationRequest),
      esCall op r =
        (if op = DialectOp.variableList ∨ op = DialectOp.statusList
            ∨ op = DialectOp.processList
         then CallOutcome.threw "Method not implemented."
         else CallOutcome.returned "")
      ∧ resultIsUnsupported (esCall op r) = false := by
  intro op r
  cases op <;> exact ⟨rfl, rfl⟩

/-- C2 counterexample: `showTriggers` is unsupported for the document-store
dialect per the capability descriptor, yet the `EsDialect` generation call
returns a Generated (empty-string) statement and no `Unsupported` result,
so the descriptor and the generation method do not agree. -/
theorem esDialect_showTriggers_generated_despite_unsupported :
    esSupports DialectOp.showTriggers = false
    ∧ resultIsGenerated (esCall DialectOp.showTriggers sampleRequest) = true
    ∧ resultIsUnsupported (esCall DialectOp.showTriggers sampleRequest)
        = false :=
  ⟨rfl, rfl, rfl⟩

/-- C2 (amended): for every operation of the fixed set and every request,
the `EsDialect` generation call never returns an `Unsupported` result: it
either returns a Generated statement (the empty string) — including for
operations the capability descriptor marks unsupported — or throws
`Error("Method not implemented.")`. -/
theorem esDialect_never_unsupported :
    ∀ (op : DialectOp) (r : OperationRequest),
      resultIsUnsupported (esCall op r) = false
      ∧ (resultIsGenerated (esCall op r) = true
          ∨ esCall op r = CallOutcome.threw "Method not implemented.") := by
  intro op r
  cases op <;> first
    | exact ⟨rfl, Or.inl rfl⟩
    | exact ⟨rfl, Or.inr rfl⟩

/-- C4 counterexample: on the document-store dialect, `showTableSource`
returns the empty string — a normal string return, not an `Unsupported`
result. -/
theorem showTableSource_returns_empty_string :
    EsDialect.showTableSource "shop" "orders" = CallOutcome.returned ""
    ∧ resultIsUnsupported (EsDialect.showTableSource "shop" "orders")
        = false :=
  ⟨rfl, rfl⟩

/-- C4 (amended): on the document-store dialect, each of the five
source-introspection operations returns the empty string for every database
and object name; none of them throws and none returns an `Unsupported`
result. -/
theorem source_introspection_returns_empty :
    ∀ database name : String,
      EsDialect.showTableSource database name = CallOutcome.returned ""
      ∧ EsDialect.showViewSource database name = CallOutcome.returned ""
      ∧ EsDialect.showProcedureSource database name = CallOutcome.returned ""
      ∧ EsDialect.showFunctionSource database name = CallOutcome.returned ""
      ∧ EsDialect.showTriggerSource database name = CallOutcome.returned "" :=
  fun _ _ => ⟨rfl, rfl, rfl, rfl, rfl⟩

/-- C5 counterexample: called with page size `0 ≤ 0`, `buildPageSql`
returns the empty string, not an `InvalidRequest` result. -/
theorem buildPageSql_nonpositive_returns_empty :
    EsDialect.buildPageSql "shop" "orders" 0 = CallOutcome.returned ""
    ∧ resultIsInvalidRequest (EsDialect.buildPageSql "shop" "orders" 0)
        = false :=
  ⟨rfl, rfl⟩

/-- C5 (amended): `EsDialect.buildPageSql` takes only a database, a table
and a page size — no page index — and returns the empty string for every
input, including non-positive page sizes; it never returns an
`InvalidRequest` result and generates no offset arithmetic. -/
theorem buildPageSql_always_empty :
    ∀ (database table : String) (pageSize : Int),
      EsDialect.buildPageSql database table pageSize = CallOutcome.returned ""
      ∧ resultIsInvalidRequest
          (EsDialect.buildPageSql database table pageSize) = false :=
  fun _ _ _ => ⟨rfl, rfl⟩

/-- C6: dialect calls are deterministic pure functions of their inputs: in
any sequence of calls, each call's outcome is `esCall` of its own operation
and request alone, and the outcome of a call with a given
(operation, request) pair is the same in any two sequences at any
positions, regardless of the surrounding calls. -/
theorem esCall_deterministic :
    ∀ (pre₁ post₁ pre₂ post₂ : List (DialectOp × OperationRequest))
      (op : DialectOp) (r : OperationRequest),
      runEsCalls (pre₁ ++ (op, r) :: post₁)
        = runEsCalls pre₁ ++ esCall op r :: runEsCalls post₁
      ∧ (runEsCalls (pre₁ ++ (op, r) :: post₁))[pre₁.length]?
          = (runEsCalls (pre₂ ++ (op, r) :: post₂))[pre₂.length]? := by
  intro pre₁ post₁ pre₂ post₂ op r
  have hsplit : ∀ pre post : List (DialectOp × OperationRequest),
      runEsCalls (pre ++ (op, r) :: post)
        = runEsCalls pre ++ esCall op r :: runEsCalls post := by
    intro pre post
    simp [runEsCalls]
  have hget : ∀ pre post : List (DialectOp × OperationRequest),
      (runEsCalls (pre ++ (op, r) :: post))[pre.length]?
        = some (esCall op r) := by
    intro pre post
    rw [hsplit]
    have hlen : (runEsCalls pre).length = pre.length := by
      simp [runEsCalls]
    rw [List.getElem?_append_right (by omega)]
    simp [hlen]
  exact ⟨hsplit pre₁ post₁, (hget pre₁ post₁).trans (hget pre₂ post₂).symm⟩

/-- C7 counterexample: called with an empty database name, `showTables`
returns the empty string exactly as for any other input; it does not return
an `InvalidRequest` result naming the field. -/
theorem showTables_empty_database_not_invalid :
    EsDialect.showTables "" = CallOutcome.returned ""
    ∧ resultIsInvalidRequest (EsDialect.showTables "") = false :=
  ⟨rfl, rfl⟩

/-- C7 (amended): the document-store dialect performs no request
validation: no call returns an `InvalidRequest` result, and every
operation's outcome is identical for any two requests — empty or malformed
required fields included. -/
theorem esDialect_no_validation :
    ∀ (op : DialectOp) (r r' : OperationRequest),
      resultIsInvalidRequest (esCall op r) = false
      ∧ esCall op r = esCall op r' := by
  intro op r r'
  cases op <;> exact ⟨rfl, rfl⟩

/-- C3 counterexample: a connection whose `dbType` is an unlisted (future)
backend kind resolves through `getNode` to the default `ConnectionNode`;
resolution does not fail with an `UnknownBackend` error. -/
theorem getNode_unlisted_defaults_to_connection :
    (getNode ⟨DatabaseType.unlisted "Future_Unlisted", none, "conn", ""⟩
        "key1").kind
      = NodeKind.connection :=
  rfl

/-- C3 (amended): `getNode` resolves ES, Redis and SSH connections to their
specific node classes and every other `dbType` — unknown and future backend
kinds included — to the default `ConnectionNode` through the final `else`
branch; resolution is total and never fails. -/
theorem getNode_total_default (c : ConnInfo) (k : String) (tag : String)
    (h : c.dbType = DatabaseType.unlisted tag) :
    (getNode c k).kind = NodeKind.connection := by
  simp [getNode, h]

/-- C3 witness: `getNode_total_default` applied to a concrete future
backend kind. -/
theorem getNode_total_default_witness :
    (getNode ⟨DatabaseType.unlisted "future", some true, "c", "s"⟩ "k2").kind
      = NodeKind.connection :=
  getNode_total_default ⟨DatabaseType.unlisted "future", some true, "c", "s"⟩
    "k2" "future" rfl

/-- Unfolds the parent-assignment loop to a pointwise map. -/
theorem setParents_eq_map (parentUid : Nat) (children : List ChildNode) :
    setParents parentUid children
      = children.map (fun child => ⟨child.uid, some parentUid⟩) := by
  induction children with
  | nil => rfl
  | cons child rest ih => simp [setParents, ih]

/-- C9: for a non-root element the provider's `getChildren` never rejects:
if the element's own `getChildren()` throws, the provider returns exactly
one `InfoNode` wrapping the error; if it succeeds, the provider returns the
children with each child's parent field set to the element. -/
theorem providerGetChildren_spec (element : TreeElement) :
    (∀ e, element.childResult = Except.error e →
        providerGetChildren element = [ProviderChild.info e])
    ∧ (∀ cs, element.childResult = Except.ok cs →
        providerGetChildren element
          = cs.map (fun child =>
              ProviderChild.node ⟨child.uid, some element.uid⟩)) := by
  constructor
  · intro e he
    simp [providerGetChildren, he]
  · intro cs hcs
    simp [providerGetChildren, hcs, setParents_eq_map]

/-- C9 witness: `providerGetChildren_spec` applied to a throwing element
and to a succeeding element with two children. -/
theorem providerGetChildren_spec_witness :
    providerGetChildren ⟨7, Except.error "boom"⟩ = [ProviderChild.info "boom"]
    ∧ providerGetChildren ⟨7, Except.ok [⟨1, none⟩, ⟨2, some 9⟩]⟩
        = [ProviderChild.node ⟨1, some 7⟩, ProviderChild.node ⟨2, some 7⟩] := by
  constructor
  · exact (providerGetChildren_spec ⟨7, Except.error "boom"⟩).1 "boom" rfl
  · have h := (providerGetChildren_spec
      ⟨7, Except.ok [⟨1, none⟩, ⟨2, some 9⟩]⟩).2 [⟨1, none⟩, ⟨2, some 9⟩] rfl
    simpa using h

/-- Escaping never produces the empty list from a nonempty identifier. -/
theorem escapeQuote_eq_nil_iff (q : Char) (s : List Char) :
    escapeQuote q s = [] ↔ s = [] := by
  cases s with
  | nil => simp [escapeQuote]
  | cons c rest =>
    by_cases h : c = q
    · simp [escapeQuote, h]
    · simp [escapeQuote, h]

/-- Collapsing doubled quote characters undoes the doubling introduced by
escaping. -/
theorem unescapeQuote_escapeQuote (q : Char) (s : List Char) :
    unescapeQuote q (escapeQuote q s) = s := by
  induction s with
  | nil => rfl
  | cons c rest ih =>
    by_cases hc : c = q
    · subst hc
      simp [escapeQuote, unescapeQuote, ih]
    · rw [escapeQuote, if_neg hc]
      cases hrest : escapeQuote q rest with
      | nil =>
        have hr : rest = [] := (escapeQuote_eq_nil_iff q rest).mp hrest
        subst hr
        simp [unescapeQuote]
      | cons c2 rest2 =>
        simp only [unescapeQuote, if_neg hc]
        rw [← hrest, ih]

/-- C8: the dialect quoting round-trip: for every opening/closing quote
character pair and every identifier — identifiers containing the dialect's
own quote characters included — quoting and then unquoting yields the
original identifier. -/
theorem quote_unquote_roundtrip :
    ∀ (op cl : Char) (s : String),
      unquoteIdentStr cl (quoteIdentStr op cl s) = s := by
  intro op cl s
  have hlist : unquoteIdent cl (quoteIdent op cl s.data) = s.data := by
    unfold quoteIdent unquoteIdent
    have h1 : (List.drop 1 (op :: escapeQuote cl s.data ++ [cl])).dropLast
        = escapeQuote cl s.data := by simp
    rw [h1, unescapeQuote_escapeQuote]
  show String.mk (unquoteIdent cl (quoteIdent op cl s.data)) = s
  rw [hlist]

/-- A key looks up to `none` exactly when it is absent from the store's key
list. -/
theorem lookupKey_eq_none_iff (k : String) (l : List (String × ConnInfo)) :
    lookupKey k l = none ↔ k ∉ l.map Prod.fst := by
  induction l with
  | nil => simp [lookupKey]
  | cons p rest ih =>
    obtain ⟨k', v⟩ := p
    by_cases h : k' = k
    · subst h
      simp [lookupKey]
    · have hne : ¬k = k' := fun hk => h hk.symm
      simp [lookupKey, h, ih, hne]

/-- A successful lookup pinpoints a pair of the store. -/
theorem lookupKey_some_mem {k : String} {v : ConnInfo}
    {l : List (String × ConnInfo)} (h : lookupKey k l = some v) :
    (k, v) ∈ l := by
  induction l with
  | nil => simp [lookupKey] at h
  | cons p rest ih =>
    obtain ⟨k', v'⟩ := p
    by_cases hk : k' = k
    · subst hk
      rw [lookupKey, if_pos rfl] at h
      simp [Option.some.injEq] at h
      simp [h]
    · rw [lookupKey, if_neg hk] at h
      simp [ih h]

/-- Looking up through the value-overriding map of the spread rewrites each
found value by the workspace override. -/
theorem lookupKey_map_override (k : String)
    (w g : List (String × ConnInfo)) :
    lookupKey k (g.map (fun p => (p.1, (lookupKey p.1 w).getD p.2)))
      = (lookupKey k g).map (fun v => (lookupKey k w).getD v) := by
  induction g with
  | nil => rfl
  | cons p rest ih =>
    obtain ⟨k', v⟩ := p
    by_cases h : k' = k
    · subst h
      simp [lookupKey]
    · simp [lookupKey, h, ih]

/-- A hit in the left half of an appended store wins. -/
theorem lookupKey_append_some {k : String} {v : ConnInfo}
    {l₁ : List (String × ConnInfo)} (l₂ : List (String × ConnInfo))
    (h : lookupKey k l₁ = some v) :
    lookupKey k (l₁ ++ l₂) = some v := by
  induction l₁ with
  | nil => simp [lookupKey] at h
  | cons p rest ih =>
    obtain ⟨k', v'⟩ := p
    by_cases hk : k' = k
    · subst hk
      rw [lookupKey, if_pos rfl] at h
      rw [List.cons_append, lookupKey, if_pos rfl]
      exact h
    · rw [lookupKey, if_neg hk] at h
      rw [List.cons_append, lookupKey, if_neg hk]
      exact ih h

/-- A miss in the left half of an appended store defers to the right
half. -/
theorem lookupKey_append_none {k : String}
    {l₁ : List (String × ConnInfo)} (l₂ : List (String × ConnInfo))
    (h : lookupKey k l₁ = none) :
    lookupKey k (l₁ ++ l₂) = lookupKey k l₂ := by
  induction l₁ with
  | nil => rfl
  | cons p rest ih =>
    obtain ⟨k', v'⟩ := p
    by_cases hk : k' = k
    · subst hk
      rw [lookupKey, if_pos rfl] at h
      exact absurd h (by simp)
    · rw [lookupKey, if_neg hk] at h
      rw [List.cons_append, lookupKey, if_neg hk]
      exact ih h

/-- For a key absent from the global store, filtering the workspace store
by global absence of each key does not change what the key looks up to. -/
theorem lookupKey_filter_globalAbsent (k : String)
    (g w : List (String × ConnInfo)) (hk : lookupKey k g = none) :
    lookupKey k (w.filter (fun p => (lookupKey p.1 g).isNone))
      = lookupKey k w := by
  induction w with
  | nil => rfl
  | cons p rest ih =>
    obtain ⟨k', v⟩ := p
    by_cases h : k' = k
    · subst h
      have hp : (lookupKey k' g).isNone = true := by simp [hk]
      rw [List.filter_cons, if_pos hp, lookupKey, if_pos rfl,
        lookupKey, if_pos rfl]
    · by_cases hp : (lookupKey k' g).isNone = true
      · rw [List.filter_cons, if_pos hp, lookupKey, if_neg h,
          lookupKey, if_neg h]
        exact ih
      · rw [List.filter_cons, if_neg hp, lookupKey, if_neg h]
        exact ih

/-- Membership in the keys of the global-absence filter of the workspace
store. -/
theorem mem_filter_keys_iff (k : String)
    (g w : List (String × ConnInfo)) :
    (k ∈ (w.filter (fun p => (lookupKey p.1 g).isNone)).map Prod.fst)
      ↔ (k ∈ w.map Prod.fst ∧ lookupKey k g = none) := by
  induction w with
  | nil => simp
  | cons p rest ih =>
    obtain ⟨k', v⟩ := p
    by_cases h : k' = k
    · subst h
      by_cases hp : (lookupKey k' g).isNone = true
      · have hkg : lookupKey k' g = none := by simpa using hp
        simp [List.filter_cons, hp, ih, hkg]
      · have hkg : lookupKey k' g ≠ none := by simpa using hp
        simp [List.filter_cons, hp, ih, hkg]
    · have hne : ¬k = k' := fun hk => h hk.symm
      by_cases hp : (lookupKey k' g).isNone = true
      · simp [List.filter_cons, hp, ih, hne]
      · simp [List.filter_cons, hp, ih, hne]

/-- C10: the connection list returned for the tree root has exactly one
node per distinct key in the union of the global and workspace stores
(the merged key list is duplicate-free and covers exactly the union), a key
present in the workspace store contributes the workspace entry's connection
data, a key absent from it falls back to the global entry, and the node
returned for a merged entry is `getNode` of that entry's data. -/
theorem getConnectionNodes_spec (g w : List (String × ConnInfo))
    (hg : (g.map Prod.fst).Nodup) (hw : (w.map Prod.fst).Nodup) :
    ((mergeConnections g w).map Prod.fst).Nodup
    ∧ (∀ k, k ∈ (mergeConnections g w).map Prod.fst
          ↔ (k ∈ g.map Prod.fst ∨ k ∈ w.map Prod.fst))
    ∧ (∀ k v, lookupKey k w = some v →
          lookupKey k (mergeConnections g w) = some v)
    ∧ (∀ k, lookupKey k w = none →
          lookupKey k (mergeConnections g w) = lookupKey k g)
    ∧ (∀ k v, lookupKey k (mergeConnections g w) = some v →
          getNode v k ∈ getConnectionNodes g w) := by
  have hkeysg : ∀ l : List (String × ConnInfo),
      (l.map (fun p => (p.1, (lookupKey p.1 w).getD p.2))).map Prod.fst
        = l.map Prod.fst := by
    intro l
    induction l with
    | nil => rfl
    | cons p rest ih => simp [ih]
  refine ⟨?_, ?_, ?_, ?_, ?_⟩
  · unfold mergeConnections
    rw [List.map_append, hkeysg]
    apply List.Nodup.append hg (hw.sublist ((List.filter_sublist _).map _))
    intro k hk1 hk2
    have h2 := (mem_filter_keys_iff k g w).mp hk2
    exact ((lookupKey_eq_none_iff k g).mp h2.2) hk1
  · intro k
    unfold mergeConnections
    rw [List.map_append, hkeysg]
    rw [List.mem_append, mem_filter_keys_iff]
    constructor
    · rintro (hk | ⟨hkw, _⟩)
      · exact Or.inl hk
      · exact Or.inr hkw
    · rintro (hk | hkw)
      · exact Or.inl hk
      · by_cases hkg : lookupKey k g = none
        · exact Or.inr ⟨hkw, hkg⟩
        · left
          by_contra hkg2
          exact hkg ((lookupKey_eq_none_iff k g).mpr hkg2)
  · intro k v hkw
    unfold mergeConnections
    cases hkg : lookupKey k g with
    | some u =>
      apply lookupKey_append_some
      rw [lookupKey_map_override, hkg]
      simp [hkw]
    | none =>
      have hmap :
          lookupKey k (g.map (fun p => (p.1, (lookupKey p.1 w).getD p.2)))
            = none := by
        rw [lookupKey_map_override, hkg]
        rfl
      rw [lookupKey_append_none _ hmap,
        lookupKey_filter_globalAbsent k g w hkg]
      exact hkw
  · intro k hkw
    unfold mergeConnections
    cases hkg : lookupKey k g with
    | some u =>
      have hmap :
          lookupKey k (g.map (fun p => (p.1, (lookupKey p.1 w).getD p.2)))
            = some u := by
        rw [lookupKey_map_override, hkg, hkw]
        rfl
      rw [lookupKey_append_some _ hmap]
    | none =>
      have hmap :
          lookupKey k (g.map (fun p => (p.1, (lookupKey p.1 w).getD p.2)))
            = none := by
        rw [lookupKey_map_override, hkg]
        rfl
      rw [lookupKey_append_none _ hmap,
        lookupKey_filter_globalAbsent k g w hkg, hkw]
  · intro k v hkv
    have hmem := lookupKey_some_mem hkv
    unfold getConnectionNodes
    exact List.mem_map.mpr ⟨(k, v), hmem, rfl⟩

/-- C10 witness: `getConnectionNodes_spec` applied to concrete stores that
share the key `"a"`: the merged keys are duplicate-free and `"a"` resolves
to the workspace entry's data. -/
theorem getConnectionNodes_spec_witness :
    ((mergeConnections demoGlobal demoWorkspace).map Prod.fst).Nodup
    ∧ lookupKey "a" (mergeConnections demoGlobal demoWorkspace)
        = some ⟨DatabaseType.es, some false, "ws-a", ""⟩ := by
  have h := getConnectionNodes_spec demoGlobal demoWorkspace
    (by decide) (by decide)
  exact ⟨h.1, h.2.2.1 "a" ⟨DatabaseType.es, some false, "ws-a", ""⟩ (by decide)⟩
